import Mathlib

/-!
Shallow embedding of the billing-consistency core of `src/server.js`
(a Node/Express + Mongoose point-of-sale backend).

Modelling conventions:
* JS numbers are modelled as `ℚ` (exact arithmetic); Mongo ObjectIds as `Nat`.
* Each Mongo collection is a `List` in the global state `St`; `findById` is
  `List.find?` on the `id` field; `save` of a mutated document maps over the
  list replacing the document with the same `id`; a newly created document is
  appended at the end and ids are drawn from a counter `St.nextId`.
* Mongoose runs schema validation on `save`; the only enum that matters on a
  mutation path is `billSchema.status`, whose enum (server.js line 68) is
  `['completed', 'pending']` — embedded as `billStatusValid`.
* JS truthiness checks `!x` on a required numeric field are embedded as
  `x = 0` (0 is the only falsy rational); truthiness of a string is `≠ ""`;
  ObjectId-valued fields are structurally present in the request records.
* An HTTP handler becomes a function from the state and a request record to a
  result carrying the HTTP status code and the (possibly partially) mutated
  state; thrown errors caught by a handler's `catch` produce status 400,
  exactly as in the source.
-/

namespace Billing

/-- Item document (itemSchema, server.js lines 26-36); fields not read by the
billing core (barcode, type, size, taxRate, lowStockThreshold) are omitted. -/
structure Item where
  id : Nat
  name : String
  costPrice : ℚ
  sellingPrice : ℚ
  stock : ℚ
  deriving Repr, DecidableEq

/-- Customer document (customerSchema, server.js lines 40-46). -/
structure Customer where
  id : Nat
  name : String
  phone : String
  address : String
  accountNumber : String
  balance : ℚ
  deriving Repr, DecidableEq

/-- A line item stored on a bill (billSchema.items, server.js lines 52-60). -/
structure BillLine where
  itemId : Nat
  quantity : ℚ
  unitPrice : ℚ
  customPrice : ℚ
  unitCost : ℚ
  total : ℚ
  totalCost : ℚ
  deriving Repr, DecidableEq

/-- Bill document (billSchema, server.js lines 50-70).  `status` is a plain
string; the schema's enum `['completed', 'pending']` is enforced on save by
`billStatusValid`. -/
structure Bill where
  id : Nat
  customerId : Nat
  items : List BillLine
  subtotal : ℚ
  markup : ℚ
  discount : ℚ
  grandTotal : ℚ
  grandTotalCost : ℚ
  paymentType : String
  partialPayment : ℚ
  status : String
  deriving Repr, DecidableEq

/-- Payment document (paymentSchema, server.js lines 74-80). -/
structure Payment where
  id : Nat
  customerId : Nat
  amount : ℚ
  paymentMethod : String
  description : String
  deriving Repr, DecidableEq

/-- Transaction (ledger) document (transactionSchema, server.js lines 84-92).
`txType` embeds the schema field `type` (a Lean keyword). -/
structure Transaction where
  id : Nat
  customerId : Nat
  billId : Option Nat
  paymentId : Option Nat
  amount : ℚ
  txType : String
  description : String
  deriving Repr, DecidableEq

/-- A line of a refund request (refundSchema.items, server.js lines 100-103). -/
structure RefundLine where
  itemId : Nat
  quantity : ℚ
  deriving Repr, DecidableEq

/-- Refund document (refundSchema, server.js lines 96-106). -/
structure Refund where
  id : Nat
  billId : Nat
  customerId : Nat
  amount : ℚ
  items : List RefundLine
  reason : String
  deriving Repr, DecidableEq

/-- The persistent store: one list per Mongo collection plus an id counter. -/
structure St where
  items : List Item
  customers : List Customer
  bills : List Bill
  payments : List Payment
  transactions : List Transaction
  refunds : List Refund
  nextId : Nat
  deriving Repr, DecidableEq

/-- `Item.findById` (first document with the given id). -/
def findItem (st : St) (iid : Nat) : Option Item :=
  st.items.find? (fun it => it.id == iid)

/-- `Customer.findById`. -/
def findCustomer (st : St) (cid : Nat) : Option Customer :=
  st.customers.find? (fun c => c.id == cid)

/-- `Bill.findById`. -/
def findBill (st : St) (bid : Nat) : Option Bill :=
  st.bills.find? (fun b => b.id == bid)

/-- `Item.findByIdAndUpdate(iid, { $inc: { stock: d } })`. -/
def adjStock (its : List Item) (iid : Nat) (d : ℚ) : List Item :=
  its.map (fun it => if it.id == iid then { it with stock := it.stock + d } else it)

/-- Persisting a customer document whose balance was set to `b`
(`customer.save()` after a balance mutation). -/
def setBalance (cs : List Customer) (cid : Nat) (b : ℚ) : List Customer :=
  cs.map (fun c => if c.id == cid then { c with balance := b } else c)

/-- The `billSchema.status` enum validator (server.js line 68):
`enum: ['completed', 'pending']`.  Note that `'refunded'` is NOT allowed. -/
def billStatusValid (s : String) : Bool :=
  s == "completed" || s == "pending"

/-! ### POST /api/bills (server.js lines 243-355) -/

/-- One line of the client's bill request. -/
structure BillLineReq where
  itemId : Nat
  quantity : ℚ
  unitPrice : ℚ
  customPrice : ℚ
  total : ℚ
  deriving Repr, DecidableEq

/-- The client's bill-creation request body. -/
structure BillReq where
  customerId : Nat
  items : List BillLineReq
  subtotal : ℚ
  markup : ℚ
  discount : ℚ
  grandTotal : ℚ
  paymentType : String
  partialPayment : ℚ
  deriving Repr, DecidableEq

/-- The `errors` array validation block (server.js lines 248-257): true iff no
error is pushed. -/
def billReqValid (req : BillReq) : Bool :=
  !req.items.isEmpty &&
  decide (0 < req.subtotal) &&
  decide (0 ≤ req.markup) && decide (req.markup ≤ 100) &&
  decide (0 ≤ req.discount) && decide (req.discount ≤ 100) &&
  decide (0 < req.grandTotal) &&
  (req.paymentType == "cash" || req.paymentType == "credit") &&
  decide (0 ≤ req.partialPayment)

/-- Processing of one request line inside the `items.map` callback
(server.js lines 264-281): required-field truthiness check, item lookup,
stock check, cost snapshot, recomputation of `total` and `totalCost`.
A thrown `Error` is an `Except.error`. -/
def populateLine (st : St) (l : BillLineReq) : Except String BillLine :=
  if l.quantity = 0 ∨ l.unitPrice = 0 ∨ l.customPrice = 0 ∨ l.total = 0 then
    .error "itemId, quantity, unitPrice, customPrice, total required"
  else
    match findItem st l.itemId with
    | none => .error "Item not found"
    | some it =>
      if it.stock < l.quantity then
        .error ("Insufficient stock for " ++ it.name)
      else
        .ok { itemId := l.itemId, quantity := l.quantity, unitPrice := l.unitPrice,
              customPrice := l.customPrice, unitCost := it.costPrice,
              total := l.quantity * l.customPrice,
              totalCost := l.quantity * it.costPrice }

/-- `Promise.all(items.map(...))`: all lines processed against the same
(unchanged) store; the first rejection aborts the whole bill request. -/
def populateItems (st : St) : List BillLineReq → Except String (List BillLine)
  | [] => .ok []
  | l :: ls =>
    match populateLine st l with
    | .error e => .error e
    | .ok pl =>
      match populateItems st ls with
      | .error e => .error e
      | .ok rest => .ok (pl :: rest)

/-- `populatedItems.reduce((sum, item) => sum + item.total, 0)`. -/
def calcSubtotal (pls : List BillLine) : ℚ :=
  (pls.map (fun pl => pl.total)).sum

/-- `populatedItems.reduce((sum, item) => sum + item.totalCost, 0)`. -/
def calcTotalCost (pls : List BillLine) : ℚ :=
  (pls.map (fun pl => pl.totalCost)).sum

/-- `calculatedMarkedUpSubtotal` (server.js line 288): the client subtotal
plus markup percent. -/
def calcMarkedUp (req : BillReq) : ℚ :=
  req.subtotal + req.subtotal * req.markup / 100

/-- `calculatedGrandTotal` (server.js line 289): markup applied to the client
subtotal, then the discount percent taken off. -/
def calcGrandTotal (req : BillReq) : ℚ :=
  calcMarkedUp req - calcMarkedUp req * req.discount / 100

/-- Result of the bill-creation handler: HTTP status, resulting store, the
`transactions` array of the 201 response (empty on error), and the `error`
message of an error response (empty on success). -/
structure BillResult where
  status : Nat
  state : St
  txs : List Transaction
  msg : String
  deriving Repr, DecidableEq

/-- The mutation phase of POST /api/bills (server.js lines 294-350), reached
only after every validation has passed: persist the bill, update the
customer's balance, decrement stock per populated line, write the `bill`
transaction and, if `partialPayment > 0`, the payment plus its `payment`
transaction. -/
def createBillApply (st : St) (req : BillReq) (customer : Customer)
    (pls : List BillLine) : BillResult :=
  let billId := st.nextId
  let bill : Bill :=
    { id := billId, customerId := req.customerId, items := pls,
      subtotal := req.subtotal, markup := req.markup, discount := req.discount,
      grandTotal := req.grandTotal, grandTotalCost := calcTotalCost pls,
      paymentType := req.paymentType, partialPayment := req.partialPayment,
      status := if req.grandTotal ≤ req.partialPayment then "completed" else "pending" }
  let st1 : St := { st with bills := st.bills ++ [bill], nextId := st.nextId + 1 }
  let st2 : St := { st1 with
    customers := setBalance st1.customers req.customerId
      (customer.balance + req.grandTotal - req.partialPayment) }
  let st3 : St := { st2 with
    items := pls.foldl (fun a pl => adjStock a pl.itemId (-pl.quantity)) st2.items }
  let billTx : Transaction :=
    { id := st3.nextId, customerId := req.customerId, billId := some billId,
      paymentId := none, amount := req.grandTotal, txType := "bill",
      description := "Bill #" ++ toString billId }
  let st4 : St := { st3 with
    transactions := st3.transactions ++ [billTx], nextId := st3.nextId + 1 }
  if 0 < req.partialPayment then
    let pay : Payment :=
      { id := st4.nextId, customerId := req.customerId, amount := req.partialPayment,
        paymentMethod := req.paymentType,
        description := "Payment for Bill #" ++ toString billId }
    let st5 : St := { st4 with payments := st4.payments ++ [pay], nextId := st4.nextId + 1 }
    let payTx : Transaction :=
      { id := st5.nextId, customerId := req.customerId, billId := some billId,
        paymentId := some pay.id, amount := -req.partialPayment, txType := "payment",
        description := "Payment for Bill #" ++ toString billId }
    let st6 : St := { st5 with
      transactions := st5.transactions ++ [payTx], nextId := st5.nextId + 1 }
    { status := 201, state := st6, txs := [billTx, payTx], msg := "" }
  else
    { status := 201, state := st4, txs := [billTx], msg := "" }

/-- The two total-verification checks of POST /api/bills
(server.js lines 283-292), followed by the mutation phase. -/
def billTotalsCheck (st : St) (req : BillReq) (customer : Customer)
    (pls : List BillLine) : BillResult :=
  if 1/100 < |calcSubtotal pls - req.subtotal| then
    { status := 400, state := st, txs := [],
      msg := "Subtotal mismatch: provided " ++ toString req.subtotal ++
             ", calculated " ++ toString (calcSubtotal pls) }
  else if 1/100 < |calcGrandTotal req - req.grandTotal| then
    { status := 400, state := st, txs := [],
      msg := "Grand total mismatch: provided " ++ toString req.grandTotal ++
             ", calculated " ++ toString (calcGrandTotal req) }
  else
    createBillApply st req customer pls

/-- The item-processing stage of POST /api/bills (server.js lines 264-281):
a thrown per-line error is answered 400 by the handler's catch. -/
def billWithCustomer (st : St) (req : BillReq) (customer : Customer) : BillResult :=
  match populateItems st req.items with
  | .error e => { status := 400, state := st, txs := [], msg := e }
  | .ok pls => billTotalsCheck st req customer pls

/-- POST /api/bills (server.js lines 243-355).  Validation order follows the
source: `errors` array (400), customer lookup (404), per-line processing
(thrown errors → 400 via the catch), subtotal tolerance check (400),
grand-total tolerance check (400), then the mutation phase (201). -/
def createBill (st : St) (req : BillReq) : BillResult :=
  if !(billReqValid req) then
    { status := 400, state := st, txs := [], msg := "validation errors" }
  else
    match findCustomer st req.customerId with
    | none => { status := 404, state := st, txs := [],
                msg := "Customer not found: " ++ toString req.customerId }
    | some customer => billWithCustomer st req customer

/-! ### POST /api/payments (server.js lines 357-387) -/

/-- The client's standalone-payment request body. -/
structure PayReq where
  customerId : Nat
  amount : ℚ
  paymentMethod : String
  description : String
  deriving Repr, DecidableEq

/-- Result of a handler that returns only a status and the mutated store. -/
structure HResult where
  status : Nat
  state : St
  deriving Repr, DecidableEq

/-- The mutation phase of POST /api/payments: persist the payment, apply
`customer.balance -= amount`, append a `payment` transaction of `-amount`. -/
def payWithCustomer (st : St) (req : PayReq) (customer : Customer) : HResult :=
  let pay : Payment :=
    { id := st.nextId, customerId := req.customerId, amount := req.amount,
      paymentMethod := req.paymentMethod, description := req.description }
  let st1 : St := { st with payments := st.payments ++ [pay], nextId := st.nextId + 1 }
  let st2 : St := { st1 with
    customers := setBalance st1.customers req.customerId (customer.balance - req.amount) }
  let tx : Transaction :=
    { id := st2.nextId, customerId := req.customerId, billId := none,
      paymentId := some pay.id, amount := -req.amount, txType := "payment",
      description := if req.description = "" then "Payment of " ++ toString req.amount
                     else req.description }
  let st3 : St := { st2 with
    transactions := st2.transactions ++ [tx], nextId := st2.nextId + 1 }
  { status := 201, state := st3 }

/-- POST /api/payments: validate (`!amount || amount <= 0` collapses to
`amount ≤ 0` over ℚ), resolve customer (404), then the mutation phase. -/
def recordPayment (st : St) (req : PayReq) : HResult :=
  if req.amount ≤ 0 ∨ ¬(req.paymentMethod = "cash" ∨ req.paymentMethod = "credit") then
    { status := 400, state := st }
  else
    match findCustomer st req.customerId with
    | none => { status := 404, state := st }
    | some customer => payWithCustomer st req customer

/-! ### POST /api/refunds (server.js lines 390-443) -/

/-- The client's refund request body. -/
structure RefundReq where
  billId : Nat
  customerId : Nat
  amount : ℚ
  items : List RefundLine
  reason : String
  deriving Repr, DecidableEq

/-- The refund item-validation loop (server.js lines 406-412).  For each
requested line it looks up the matching original bill line and rejects if
absent or if the requested quantity exceeds the original quantity; a VALID
line's stock increment is applied immediately, inside the loop, before the
remaining lines are validated.  Returns whether every line validated together
with the item list as mutated so far. -/
def refundLoop (bill : Bill) (its : List Item) : List RefundLine → Bool × List Item
  | [] => (true, its)
  | l :: ls =>
    match bill.items.find? (fun bi => bi.itemId == l.itemId) with
    | none => (false, its)
    | some bi =>
      if bi.quantity < l.quantity then (false, its)
      else refundLoop bill (adjStock its l.itemId l.quantity) ls

/-- The persistence phase of POST /api/refunds, after the item loop succeeded
on the already-incremented item list (`st1`): persist the Refund, then set
`bill.status = 'refunded'` and `bill.save()`.  Mongoose enum validation
(`billStatusValid`, from server.js line 68) rejects `'refunded'`, the save
throws, and the catch answers 400 — the status write, balance update and
ledger write below the save (lines 423-436, embedded faithfully under the
validation guard) are never reached. -/
def refundPersist (st1 : St) (req : RefundReq) (bill : Bill)
    (customer : Customer) : HResult :=
  let refund : Refund :=
    { id := st1.nextId, billId := req.billId, customerId := req.customerId,
      amount := req.amount, items := req.items, reason := req.reason }
  let st2 : St := { st1 with
    refunds := st1.refunds ++ [refund], nextId := st1.nextId + 1 }
  let bill' : Bill := { bill with status := "refunded" }
  if billStatusValid bill'.status then
    let st3 : St := { st2 with
      bills := st2.bills.map (fun b => if b.id == bill.id then bill' else b) }
    let st4 : St := { st3 with
      customers := setBalance st3.customers req.customerId
        (customer.balance - req.amount) }
    let tx : Transaction :=
      { id := st4.nextId, customerId := req.customerId,
        billId := some req.billId, paymentId := none, amount := -req.amount,
        txType := "refund",
        description := "Refund for Bill #" ++ toString req.billId ++ ": " ++ req.reason }
    let st5 : St := { st4 with
      transactions := st4.transactions ++ [tx], nextId := st4.nextId + 1 }
    { status := 201, state := st5 }
  else
    { status := 400, state := st2 }

/-- The item-validation loop followed by the persistence phase. -/
def refundWithBill (st : St) (req : RefundReq) (bill : Bill)
    (customer : Customer) : HResult :=
  let r := refundLoop bill st.items req.items
  if !r.1 then { status := 400, state := { st with items := r.2 } }
  else refundPersist { st with items := r.2 } req bill customer

/-- The customer lookup of POST /api/refunds (404 if absent), then loop and
persistence. -/
def refundWithBillStage (st : St) (req : RefundReq) (bill : Bill) : HResult :=
  match findCustomer st req.customerId with
  | none => { status := 404, state := st }
  | some customer => refundWithBill st req bill customer

/-- The already-refunded check of POST /api/refunds, then the rest. -/
def refundBillStage (st : St) (req : RefundReq) (bill : Bill) : HResult :=
  if bill.status = "refunded" then { status := 400, state := st }
  else refundWithBillStage st req bill

/-- POST /api/refunds (server.js lines 390-443): basic field validation, bill
lookup (`Bill not found or already refunded` → 400), customer lookup (404),
then loop + persistence. -/
def processRefund (st : St) (req : RefundReq) : HResult :=
  if req.amount ≤ 0 ∨ req.items.isEmpty ∨ req.reason = "" then
    { status := 400, state := st }
  else
    match findBill st req.billId with
    | none => { status := 400, state := st }
    | some bill => refundBillStage st req bill

/-! ### POST /api/customers (server.js lines 171-183) -/

/-- The client's customer-creation request body.  `new Customer(req.body)`
passes the whole body to the schema, so a client-supplied `balance` is stored
as given; when absent the schema default 0 applies. -/
structure CustReq where
  name : String
  phone : String
  address : String
  accountNumber : String
  balance : Option ℚ
  deriving Repr, DecidableEq

/-- POST /api/customers: requires truthy name/phone/accountNumber, enforces the
unique index on `accountNumber` (the `err.code === 11000` branch → 400), and
persists the document with `balance` taken from the request body (default 0). -/
def createCustomer (st : St) (req : CustReq) : HResult :=
  if req.name = "" ∨ req.phone = "" ∨ req.accountNumber = "" then
    { status := 400, state := st }
  else if st.customers.any (fun c => c.accountNumber == req.accountNumber) then
    { status := 400, state := st }
  else
    let c : Customer :=
      { id := st.nextId, name := req.name, phone := req.phone, address := req.address,
        accountNumber := req.accountNumber, balance := req.balance.getD 0 }
    let st1 : St := { st with customers := st.customers ++ [c], nextId := st.nextId + 1 }
    { status := 201, state := st1 }

/-! ### Ledger replay -/

/-- Sum of `Transaction.amount` over a customer's ledger entries. -/
def txSum (ts : List Transaction) (cid : Nat) : ℚ :=
  ((ts.filter (fun t => t.customerId == cid)).map (fun t => t.amount)).sum

/-- Ledger consistency: every stored customer's balance equals the sum of the
amounts of their transactions. -/
def ledgerOk (st : St) : Prop :=
  ∀ c ∈ st.customers, txSum st.transactions c.id = c.balance

instance : DecidablePred ledgerOk := fun st =>
  inferInstanceAs (Decidable (∀ c ∈ st.customers, txSum st.transactions c.id = c.balance))

/-- A balance-affecting request: bill creation, standalone payment, or refund. -/
inductive Op where
  | bill (req : BillReq)
  | pay (req : PayReq)
  | refund (req : RefundReq)
  deriving Repr, DecidableEq

/-- The store after handling one request (whatever its HTTP status). -/
def applyOp (st : St) : Op → St
  | .bill req => (createBill st req).state
  | .pay req => (recordPayment st req).state
  | .refund req => (processRefund st req).state

/-- The store after handling a sequence of requests. -/
def run (st : St) : List Op → St
  | [] => st
  | op :: ops => run (applyOp st op) ops

/-! ### Helper lemmas -/

/-- `adjStock` commutes with `find?` on an id predicate. -/
theorem find?_adjStock (its : List Item) (iid jid : Nat) (d : ℚ) :
    (adjStock its jid d).find? (fun it => it.id == iid)
      = (its.find? (fun it => it.id == iid)).map
          (fun it => if it.id == jid then { it with stock := it.stock + d } else it) := by
  unfold adjStock
  rw [List.find?_map]
  have h : ((fun it : Item => it.id == iid) ∘ fun it =>
      if it.id == jid then { it with stock := it.stock + d } else it)
      = (fun it : Item => it.id == iid) := by
    funext it
    by_cases h : it.id == jid <;> simp [Function.comp, h]
  rw [h]

/-- `setBalance` commutes with `find?` on an id predicate. -/
theorem find?_setBalance (cs : List Customer) (cid cid' : Nat) (b : ℚ) :
    (setBalance cs cid b).find? (fun c => c.id == cid')
      = (cs.find? (fun c => c.id == cid')).map
          (fun c => if c.id == cid then { c with balance := b } else c) := by
  unfold setBalance
  rw [List.find?_map]
  have h : ((fun c : Customer => c.id == cid') ∘ fun c =>
      if c.id == cid then { c with balance := b } else c)
      = (fun c : Customer => c.id == cid') := by
    funext c
    by_cases h : c.id == cid <;> simp [Function.comp, h]
  rw [h]

/-- Total quantity requested for item `iid` across the populated bill lines. -/
def stockDelta (pls : List BillLine) (iid : Nat) : ℚ :=
  ((pls.filter (fun pl => pl.itemId == iid)).map (fun pl => pl.quantity)).sum

theorem stockDelta_nil (iid : Nat) : stockDelta [] iid = 0 := rfl

theorem stockDelta_cons (pl : BillLine) (pls : List BillLine) (iid : Nat) :
    stockDelta (pl :: pls) iid
      = (if pl.itemId == iid then pl.quantity else 0) + stockDelta pls iid := by
  by_cases h : pl.itemId == iid <;> simp [stockDelta, h]

/-- The stock-decrement loop of bill creation, as one map over the item list:
each item's stock drops by the total quantity requested for it. -/
theorem decStock_foldl_eq (pls : List BillLine) :
    ∀ its : List Item,
      pls.foldl (fun a pl => adjStock a pl.itemId (-pl.quantity)) its
        = its.map (fun it => { it with stock := it.stock - stockDelta pls it.id }) := by
  induction pls with
  | nil =>
    intro its
    simp only [List.foldl_nil]
    symm
    have h : ∀ it ∈ its,
        ({ it with stock := it.stock - stockDelta [] it.id } : Item) = id it := by
      intro it _
      simp [stockDelta_nil]
    rw [List.map_congr_left h, List.map_id]
  | cons pl pls ih =>
    intro its
    simp only [List.foldl_cons]
    rw [ih (adjStock its pl.itemId (-pl.quantity))]
    unfold adjStock
    rw [List.map_map]
    refine List.map_congr_left ?_
    intro it _
    simp only [Function.comp, stockDelta_cons]
    by_cases h : it.id = pl.itemId
    · simp [h]
      ring
    · have h2 : ¬ pl.itemId = it.id := fun hh => h hh.symm
      simp [h, h2]

/-- What a successful `populateItems` guarantees, line by line. -/
theorem populateItems_ok_spec (st : St) :
    ∀ (ls : List BillLineReq) (pls : List BillLine),
      populateItems st ls = .ok pls →
      List.Forall₂ (fun (l : BillLineReq) (pl : BillLine) =>
        pl.itemId = l.itemId ∧ pl.quantity = l.quantity ∧
        pl.total = l.quantity * l.customPrice ∧
        ∃ it, findItem st l.itemId = some it ∧ l.quantity ≤ it.stock) ls pls := by
  intro ls
  induction ls with
  | nil =>
    intro pls h
    simp only [populateItems] at h
    cases h
    exact List.Forall₂.nil
  | cons l ls ih =>
    intro pls h
    simp only [populateItems] at h
    cases hpl : populateLine st l with
    | error e => rw [hpl] at h; cases h
    | ok pl =>
      rw [hpl] at h
      cases hrest : populateItems st ls with
      | error e => rw [hrest] at h; cases h
      | ok rest =>
        rw [hrest] at h
        cases h
        refine List.Forall₂.cons ?_ (ih rest hrest)
        unfold populateLine at hpl
        by_cases hz : l.quantity = 0 ∨ l.unitPrice = 0 ∨ l.customPrice = 0 ∨ l.total = 0
        · simp only [if_pos hz] at hpl; cases hpl
        · simp only [if_neg hz] at hpl
          cases hit : findItem st l.itemId with
          | none => rw [hit] at hpl; cases hpl
          | some it =>
            rw [hit] at hpl
            by_cases hs : it.stock < l.quantity
            · simp only [if_pos hs] at hpl; cases hpl
            · simp only [if_neg hs] at hpl
              cases hpl
              exact ⟨rfl, rfl, rfl, it, rfl, le_of_not_lt hs⟩

/-- The mutation phase always answers 201. -/
theorem createBillApply_status (st : St) (req : BillReq) (c : Customer)
    (pls : List BillLine) : (createBillApply st req c pls).status = 201 := by
  unfold createBillApply
  by_cases h : 0 < req.partialPayment <;> simp [h]

/-- Balance change performed by the mutation phase. -/
theorem createBillApply_customers (st : St) (req : BillReq) (c : Customer)
    (pls : List BillLine) :
    (createBillApply st req c pls).state.customers
      = setBalance st.customers req.customerId
          (c.balance + req.grandTotal - req.partialPayment) := by
  unfold createBillApply
  by_cases h : 0 < req.partialPayment <;> simp [h]

/-- Stock change performed by the mutation phase. -/
theorem createBillApply_items (st : St) (req : BillReq) (c : Customer)
    (pls : List BillLine) :
    (createBillApply st req c pls).state.items
      = st.items.map (fun it => { it with stock := it.stock - stockDelta pls it.id }) := by
  unfold createBillApply
  by_cases h : 0 < req.partialPayment <;>
    simp [h, decStock_foldl_eq]

/-- The ledger grows exactly by the transactions returned in the response. -/
theorem createBillApply_transactions (st : St) (req : BillReq) (c : Customer)
    (pls : List BillLine) :
    (createBillApply st req c pls).state.transactions
      = st.transactions ++ (createBillApply st req c pls).txs := by
  unfold createBillApply
  by_cases h : 0 < req.partialPayment <;> simp [h]

/-- The transactions created by the mutation phase: exactly one of type `bill`
with amount `+grandTotal`, and one of type `payment` with amount
`-partialPayment` iff `partialPayment > 0`. -/
theorem createBillApply_txs (st : St) (req : BillReq) (c : Customer)
    (pls : List BillLine) :
    (((createBillApply st req c pls).txs.filter
        (fun t => t.txType == "bill")).map (fun t => t.amount) = [req.grandTotal]) ∧
    (((createBillApply st req c pls).txs.filter
        (fun t => t.txType == "payment")).map (fun t => t.amount)
      = if 0 < req.partialPayment then [-req.partialPayment] else []) ∧
    (∀ t ∈ (createBillApply st req c pls).txs, t.customerId = req.customerId) ∧
    (((createBillApply st req c pls).txs.map (fun t => t.amount)).sum
      = req.grandTotal - (if 0 < req.partialPayment then req.partialPayment else 0)) := by
  unfold createBillApply
  by_cases h : 0 < req.partialPayment
  all_goals simp [h]
  all_goals ring

/-- Collections not touched by the mutation phase. -/
theorem createBillApply_unchanged (st : St) (req : BillReq) (c : Customer)
    (pls : List BillLine) :
    (createBillApply st req c pls).state.refunds = st.refunds := by
  unfold createBillApply
  by_cases h : 0 < req.partialPayment <;> simp [h]

/-- The invalid-field branch of POST /api/bills. -/
theorem createBill_invalid (st : St) (req : BillReq)
    (hv : billReqValid req = false) :
    createBill st req
      = { status := 400, state := st, txs := [], msg := "validation errors" } := by
  unfold createBill
  rw [hv]
  rfl

/-- The missing-customer branch of POST /api/bills. -/
theorem createBill_noCustomer (st : St) (req : BillReq)
    (hv : billReqValid req = true) (hc : findCustomer st req.customerId = none) :
    createBill st req
      = { status := 404, state := st, txs := [],
          msg := "Customer not found: " ++ toString req.customerId } := by
  unfold createBill
  rw [hv, hc]
  rfl

/-- With the field validation passed and the customer resolved, the handler
continues with the item-processing stage. -/
theorem createBill_withCustomer (st : St) (req : BillReq) (c : Customer)
    (hv : billReqValid req = true) (hc : findCustomer st req.customerId = some c) :
    createBill st req = billWithCustomer st req c := by
  unfold createBill
  rw [hv, hc]
  rfl

/-- The thrown-line-error branch of the item-processing stage. -/
theorem billWithCustomer_err (st : St) (req : BillReq) (c : Customer) (e : String)
    (hp : populateItems st req.items = .error e) :
    billWithCustomer st req c
      = { status := 400, state := st, txs := [], msg := e } := by
  unfold billWithCustomer
  rw [hp]

/-- With every line resolved, the handler continues with the totals checks. -/
theorem billWithCustomer_ok (st : St) (req : BillReq) (c : Customer)
    (pls : List BillLine) (hp : populateItems st req.items = .ok pls) :
    billWithCustomer st req c = billTotalsCheck st req c pls := by
  unfold billWithCustomer
  rw [hp]

/-- The subtotal-mismatch branch of the totals checks. -/
theorem billTotalsCheck_subMismatch (st : St) (req : BillReq) (c : Customer)
    (pls : List BillLine) (h1 : 1/100 < |calcSubtotal pls - req.subtotal|) :
    billTotalsCheck st req c pls
      = { status := 400, state := st, txs := [],
          msg := "Subtotal mismatch: provided " ++ toString req.subtotal ++
                 ", calculated " ++ toString (calcSubtotal pls) } := by
  unfold billTotalsCheck
  rw [if_pos h1]

/-- The grand-total-mismatch branch of the totals checks. -/
theorem billTotalsCheck_gtMismatch (st : St) (req : BillReq) (c : Customer)
    (pls : List BillLine) (h1 : ¬ 1/100 < |calcSubtotal pls - req.subtotal|)
    (h2 : 1/100 < |calcGrandTotal req - req.grandTotal|) :
    billTotalsCheck st req c pls
      = { status := 400, state := st, txs := [],
          msg := "Grand total mismatch: provided " ++ toString req.grandTotal ++
                 ", calculated " ++ toString (calcGrandTotal req) } := by
  unfold billTotalsCheck
  rw [if_neg h1, if_pos h2]

/-- The all-checks-passed branch of the totals checks. -/
theorem billTotalsCheck_ok (st : St) (req : BillReq) (c : Customer)
    (pls : List BillLine) (h1 : ¬ 1/100 < |calcSubtotal pls - req.subtotal|)
    (h2 : ¬ 1/100 < |calcGrandTotal req - req.grandTotal|) :
    billTotalsCheck st req c pls = createBillApply st req c pls := by
  unfold billTotalsCheck
  rw [if_neg h1, if_neg h2]

/-- Exhaustive case analysis of POST /api/bills: exactly one of the six
outcomes of the handler occurs, with its full response. -/
theorem createBill_cases (st : St) (req : BillReq) :
    (billReqValid req = false ∧
      createBill st req
        = { status := 400, state := st, txs := [], msg := "validation errors" }) ∨
    (billReqValid req = true ∧ findCustomer st req.customerId = none ∧
      createBill st req
        = { status := 404, state := st, txs := [],
            msg := "Customer not found: " ++ toString req.customerId }) ∨
    (∃ c e, billReqValid req = true ∧ findCustomer st req.customerId = some c ∧
      populateItems st req.items = .error e ∧
      createBill st req = { status := 400, state := st, txs := [], msg := e }) ∨
    (∃ c pls, billReqValid req = true ∧ findCustomer st req.customerId = some c ∧
      populateItems st req.items = .ok pls ∧
      1/100 < |calcSubtotal pls - req.subtotal| ∧
      createBill st req
        = { status := 400, state := st, txs := [],
            msg := "Subtotal mismatch: provided " ++ toString req.subtotal ++
                   ", calculated " ++ toString (calcSubtotal pls) }) ∨
    (∃ c pls, billReqValid req = true ∧ findCustomer st req.customerId = some c ∧
      populateItems st req.items = .ok pls ∧
      |calcSubtotal pls - req.subtotal| ≤ 1/100 ∧
      1/100 < |calcGrandTotal req - req.grandTotal| ∧
      createBill st req
        = { status := 400, state := st, txs := [],
            msg := "Grand total mismatch: provided " ++ toString req.grandTotal ++
                   ", calculated " ++ toString (calcGrandTotal req) }) ∨
    (∃ c pls, billReqValid req = true ∧ findCustomer st req.customerId = some c ∧
      populateItems st req.items = .ok pls ∧
      |calcSubtotal pls - req.subtotal| ≤ 1/100 ∧
      |calcGrandTotal req - req.grandTotal| ≤ 1/100 ∧
      createBill st req = createBillApply st req c pls) := by
  rcases Bool.eq_false_or_eq_true (billReqValid req) with hv | hv
  case inr => exact Or.inl ⟨hv, createBill_invalid st req hv⟩
  cases hc : findCustomer st req.customerId with
  | none => exact Or.inr (Or.inl ⟨hv, rfl, createBill_noCustomer st req hv hc⟩)
  | some c =>
    have hcb := createBill_withCustomer st req c hv hc
    cases hp : populateItems st req.items with
    | error e =>
      exact Or.inr (Or.inr (Or.inl ⟨c, e, hv, rfl, rfl,
        hcb.trans (billWithCustomer_err st req c e hp)⟩))
    | ok pls =>
      have hwb := billWithCustomer_ok st req c pls hp
      by_cases h1 : 1/100 < |calcSubtotal pls - req.subtotal|
      · exact Or.inr (Or.inr (Or.inr (Or.inl ⟨c, pls, hv, rfl, rfl, h1,
          (hcb.trans hwb).trans (billTotalsCheck_subMismatch st req c pls h1)⟩)))
      by_cases h2 : 1/100 < |calcGrandTotal req - req.grandTotal|
      · exact Or.inr (Or.inr (Or.inr (Or.inr (Or.inl ⟨c, pls, hv, rfl, rfl,
          le_of_not_lt h1, h2,
          (hcb.trans hwb).trans (billTotalsCheck_gtMismatch st req c pls h1 h2)⟩))))
      · exact Or.inr (Or.inr (Or.inr (Or.inr (Or.inr ⟨c, pls, hv, rfl, rfl,
          le_of_not_lt h1, le_of_not_lt h2,
          (hcb.trans hwb).trans (billTotalsCheck_ok st req c pls h1 h2)⟩))))

/-- A bill-creation request that is not answered 201 leaves the store
untouched and creates no transactions: every rejection happens before the
first write. -/
theorem createBill_err (st : St) (req : BillReq)
    (h : (createBill st req).status ≠ 201) :
    (createBill st req).state = st ∧ (createBill st req).txs = [] := by
  rcases createBill_cases st req with ⟨_, he⟩ | ⟨_, _, he⟩ | ⟨c, e, _, _, _, he⟩ |
    ⟨c, pls, _, _, _, _, he⟩ | ⟨c, pls, _, _, _, _, _, he⟩ | ⟨c, pls, _, _, _, _, _, he⟩ <;>
    rw [he] <;> first
      | exact ⟨rfl, rfl⟩
      | exact absurd (he ▸ createBillApply_status st req c pls) h

/-- A 201 answer means: the request passed the field validation, the customer
and every item resolved, both totals matched within the 0.01 tolerance, and
the result is the mutation phase applied to the resolved data. -/
theorem createBill_succ (st : St) (req : BillReq)
    (h : (createBill st req).status = 201) :
    ∃ c pls, billReqValid req = true ∧
      findCustomer st req.customerId = some c ∧
      populateItems st req.items = .ok pls ∧
      |calcSubtotal pls - req.subtotal| ≤ 1/100 ∧
      |calcGrandTotal req - req.grandTotal| ≤ 1/100 ∧
      createBill st req = createBillApply st req c pls := by
  rcases createBill_cases st req with ⟨_, he⟩ | ⟨_, _, he⟩ | ⟨c, e, _, _, _, he⟩ |
    ⟨c, pls, _, _, _, _, he⟩ | ⟨c, pls, _, _, _, _, _, he⟩ |
    ⟨c, pls, hv, hc, hp, h1, h2, he⟩
  · rw [he] at h; cases h
  · rw [he] at h; cases h
  · rw [he] at h; cases h
  · rw [he] at h; cases h
  · rw [he] at h; cases h
  · exact ⟨c, pls, hv, hc, hp, h1, h2, he⟩

/-! ### Characterization of POST /api/refunds and POST /api/payments -/

/-- The Refund document a refund request would persist. -/
def refundDoc (st1 : St) (req : RefundReq) : Refund :=
  { id := st1.nextId, billId := req.billId, customerId := req.customerId,
    amount := req.amount, items := req.items, reason := req.reason }

/-- The persistence phase ALWAYS answers 400: `'refunded'` is not in the
`billSchema.status` enum, so `bill.save()` throws after the Refund document
was saved; the status write, the balance update and the ledger write are dead
code. -/
theorem refundPersist_eq (st1 : St) (req : RefundReq) (bill : Bill)
    (customer : Customer) :
    refundPersist st1 req bill customer
      = { status := 400,
          state := { st1 with
            refunds := st1.refunds ++ [refundDoc st1 req],
            nextId := st1.nextId + 1 } } := by
  unfold refundPersist refundDoc
  rfl

/-- A failed item loop stops the handler at 400, keeping the stock increments
already applied to the lines before the offending one. -/
theorem refundWithBill_loopFail (st : St) (req : RefundReq) (bill : Bill)
    (customer : Customer) (h : (refundLoop bill st.items req.items).1 = false) :
    refundWithBill st req bill customer
      = { status := 400,
          state := { st with items := (refundLoop bill st.items req.items).2 } } := by
  simp only [refundWithBill]
  rw [h]
  rfl

/-- A successful item loop continues into the persistence phase with all
stock increments applied. -/
theorem refundWithBill_loopOk (st : St) (req : RefundReq) (bill : Bill)
    (customer : Customer) (h : (refundLoop bill st.items req.items).1 = true) :
    refundWithBill st req bill customer
      = refundPersist { st with items := (refundLoop bill st.items req.items).2 }
          req bill customer := by
  simp only [refundWithBill]
  rw [h]
  rfl

/-- Exhaustive case analysis of POST /api/refunds. -/
theorem processRefund_cases (st : St) (req : RefundReq) :
    ((req.amount ≤ 0 ∨ req.items.isEmpty = true ∨ req.reason = "") ∧
      processRefund st req = { status := 400, state := st }) ∨
    (findBill st req.billId = none ∧
      processRefund st req = { status := 400, state := st }) ∨
    (∃ bill, findBill st req.billId = some bill ∧ bill.status = "refunded" ∧
      processRefund st req = { status := 400, state := st }) ∨
    (∃ bill, findBill st req.billId = some bill ∧ bill.status ≠ "refunded" ∧
      findCustomer st req.customerId = none ∧
      processRefund st req = { status := 404, state := st }) ∨
    (∃ bill c, findBill st req.billId = some bill ∧ bill.status ≠ "refunded" ∧
      findCustomer st req.customerId = some c ∧
      (refundLoop bill st.items req.items).1 = false ∧
      processRefund st req
        = { status := 400,
            state := { st with items := (refundLoop bill st.items req.items).2 } }) ∨
    (∃ bill c, findBill st req.billId = some bill ∧ bill.status ≠ "refunded" ∧
      findCustomer st req.customerId = some c ∧
      (refundLoop bill st.items req.items).1 = true ∧
      processRefund st req
        = { status := 400,
            state := { st with
              items := (refundLoop bill st.items req.items).2,
              refunds := st.refunds ++
                [refundDoc { st with items := (refundLoop bill st.items req.items).2 } req],
              nextId := st.nextId + 1 } }) := by
  by_cases hb : req.amount ≤ 0 ∨ req.items.isEmpty = true ∨ req.reason = ""
  · refine Or.inl ⟨hb, ?_⟩
    unfold processRefund
    rw [if_pos ?_]
    simpa using hb
  cases hbill : findBill st req.billId with
  | none =>
    refine Or.inr (Or.inl ⟨rfl, ?_⟩)
    unfold processRefund
    rw [if_neg ?_, hbill]
    simpa using hb
  | some bill =>
    have hstage : processRefund st req = refundBillStage st req bill := by
      unfold processRefund
      rw [if_neg ?_, hbill]
      simpa using hb
    by_cases hs : bill.status = "refunded"
    · refine Or.inr (Or.inr (Or.inl ⟨bill, rfl, hs, ?_⟩))
      rw [hstage]
      unfold refundBillStage
      rw [if_pos hs]
    have hmain : processRefund st req = refundWithBillStage st req bill := by
      rw [hstage]
      unfold refundBillStage
      rw [if_neg hs]
    cases hc : findCustomer st req.customerId with
    | none =>
      refine Or.inr (Or.inr (Or.inr (Or.inl ⟨bill, rfl, hs, rfl, ?_⟩)))
      rw [hmain]
      unfold refundWithBillStage
      rw [hc]
    | some c =>
      have hmain2 : processRefund st req = refundWithBill st req bill c := by
        rw [hmain]
        unfold refundWithBillStage
        rw [hc]
      rcases Bool.eq_false_or_eq_true (refundLoop bill st.items req.items).1 with hl | hl
      · refine Or.inr (Or.inr (Or.inr (Or.inr (Or.inr ⟨bill, c, rfl, hs, rfl, hl, ?_⟩))))
        rw [hmain2, refundWithBill_loopOk st req bill c hl, refundPersist_eq]
      · refine Or.inr (Or.inr (Or.inr (Or.inr (Or.inl ⟨bill, c, rfl, hs, rfl, hl, ?_⟩))))
        rw [hmain2, refundWithBill_loopFail st req bill c hl]

/-- POST /api/refunds can never answer 201, and it never touches customers,
bills, payments or the ledger: the only collections it can mutate are the
item stocks (incremented inside the validation loop) and the refunds list. -/
theorem processRefund_immutable (st : St) (req : RefundReq) :
    (processRefund st req).state.customers = st.customers ∧
    (processRefund st req).state.transactions = st.transactions ∧
    (processRefund st req).state.bills = st.bills ∧
    (processRefund st req).state.payments = st.payments ∧
    (processRefund st req).status ≠ 201 := by
  rcases processRefund_cases st req with ⟨_, he⟩ | ⟨_, he⟩ | ⟨b, _, _, he⟩ |
    ⟨b, _, _, _, he⟩ | ⟨b, c, _, _, _, _, he⟩ | ⟨b, c, _, _, _, _, he⟩ <;>
    rw [he] <;> refine ⟨rfl, rfl, rfl, rfl, ?_⟩ <;> simp

/-- Explicit result of the payment mutation phase. -/
theorem payWithCustomer_eq (st : St) (req : PayReq) (customer : Customer) :
    payWithCustomer st req customer
      = { status := 201,
          state := { st with
            payments := st.payments ++
              [{ id := st.nextId, customerId := req.customerId, amount := req.amount,
                 paymentMethod := req.paymentMethod, description := req.description }],
            customers := setBalance st.customers req.customerId
              (customer.balance - req.amount),
            transactions := st.transactions ++
              [{ id := st.nextId + 1, customerId := req.customerId, billId := none,
                 paymentId := some st.nextId, amount := -req.amount,
                 txType := "payment",
                 description := if req.description = ""
                                then "Payment of " ++ toString req.amount
                                else req.description }],
            nextId := st.nextId + 1 + 1 } } := rfl

/-- Exhaustive case analysis of POST /api/payments. -/
theorem recordPayment_cases (st : St) (req : PayReq) :
    ((req.amount ≤ 0 ∨ ¬(req.paymentMethod = "cash" ∨ req.paymentMethod = "credit")) ∧
      recordPayment st req = { status := 400, state := st }) ∨
    (findCustomer st req.customerId = none ∧
      recordPayment st req = { status := 404, state := st }) ∨
    (∃ c, findCustomer st req.customerId = some c ∧
      recordPayment st req = payWithCustomer st req c) := by
  by_cases hv : req.amount ≤ 0 ∨ ¬(req.paymentMethod = "cash" ∨ req.paymentMethod = "credit")
  · refine Or.inl ⟨hv, ?_⟩
    unfold recordPayment
    rw [if_pos hv]
  cases hc : findCustomer st req.customerId with
  | none =>
    refine Or.inr (Or.inl ⟨rfl, ?_⟩)
    unfold recordPayment
    rw [if_neg hv, hc]
  | some c =>
    refine Or.inr (Or.inr ⟨c, rfl, ?_⟩)
    unfold recordPayment
    rw [if_neg hv, hc]

/-! ### Ledger-replay lemmas -/

theorem txSum_append (ts₁ ts₂ : List Transaction) (cid : Nat) :
    txSum (ts₁ ++ ts₂) cid = txSum ts₁ cid + txSum ts₂ cid := by
  simp [txSum, List.filter_append]

theorem txSum_cons (t : Transaction) (ts : List Transaction) (x : Nat) :
    txSum (t :: ts) x
      = (if t.customerId == x then t.amount else 0) + txSum ts x := by
  by_cases h : t.customerId == x <;> simp [txSum, List.filter_cons, h]

/-- Ledger sum of a batch whose entries all belong to customer `cid`. -/
theorem txSum_of_all (ts : List Transaction) (cid x : Nat)
    (h : ∀ t ∈ ts, t.customerId = cid) :
    txSum ts x = if x = cid then (ts.map (fun t => t.amount)).sum else 0 := by
  induction ts with
  | nil => by_cases hx : x = cid <;> simp [txSum, hx]
  | cons t ts ih =>
    have ht := h t (by simp)
    have hts : ∀ u ∈ ts, u.customerId = cid := fun u hu => h u (by simp [hu])
    rw [txSum_cons, ih hts]
    by_cases hx : x = cid
    · subst hx
      simp [ht]
    · have hne : (t.customerId == x) = false := by
        rw [ht]
        exact beq_eq_false_iff_ne.mpr (fun hh => hx hh.symm)
      simp [hne, hx]

/-- `ledgerOk` only looks at customers and transactions. -/
theorem ledgerOk_of_eq (st st' : St) (hcs : st'.customers = st.customers)
    (hts : st'.transactions = st.transactions) (h : ledgerOk st) : ledgerOk st' := by
  intro c hc
  rw [hts]
  exact h c (by rw [← hcs]; exact hc)

/-- The field validation bounds `partialPayment` below by 0. -/
theorem billReqValid_partialPayment (req : BillReq)
    (hv : billReqValid req = true) : 0 ≤ req.partialPayment := by
  unfold billReqValid at hv
  simp only [Bool.and_eq_true, decide_eq_true_eq] at hv
  exact hv.2

/-- Bill creation preserves ledger consistency: the balance delta
`grandTotal - partialPayment` equals the summed amounts of the transactions
written (`+grandTotal`, and `-partialPayment` iff `partialPayment > 0`). -/
theorem createBill_ledgerOk (st : St) (req : BillReq) (h : ledgerOk st) :
    ledgerOk (createBill st req).state := by
  by_cases h201 : (createBill st req).status = 201
  · obtain ⟨c, pls, hv, hc, hp, _, _, he⟩ := createBill_succ st req h201
    rw [he]
    intro c' hc'
    rw [createBillApply_customers] at hc'
    rw [createBillApply_transactions]
    obtain ⟨htb, htp, hall, hsum⟩ := createBillApply_txs st req c pls
    have hcmem : c ∈ st.customers := List.mem_of_find?_eq_some hc
    have hcid : c.id = req.customerId := by
      have := List.find?_some hc
      simpa using this
    rw [txSum_append]
    simp only [setBalance] at hc'
    obtain ⟨c₀, hc₀mem, hc₀eq⟩ := List.mem_map.mp hc'
    have h1 : txSum st.transactions c₀.id = c₀.balance := h c₀ hc₀mem
    by_cases hid : c₀.id = req.customerId
    · have hc' : c'
          = { c₀ with balance := c.balance + req.grandTotal - req.partialPayment } := by
        rw [← hc₀eq]
        simp [hid]
      have h2 : txSum st.transactions c.id = c.balance := h c hcmem
      have hcc : c₀.balance = c.balance := by
        rw [← h1, ← h2, hid, hcid]
      have hpp : (if 0 < req.partialPayment then req.partialPayment else 0)
          = req.partialPayment := by
        by_cases hp0 : 0 < req.partialPayment
        · rw [if_pos hp0]
        · rw [if_neg hp0]
          have := billReqValid_partialPayment req hv
          have : req.partialPayment = 0 := le_antisymm (not_lt.mp hp0) this
          rw [this]
      have h3 : txSum (createBillApply st req c pls).txs c₀.id
          = req.grandTotal - req.partialPayment := by
        rw [txSum_of_all _ req.customerId c₀.id hall, if_pos hid, hsum, hpp]
      rw [hc']
      simp only
      rw [h1, h3, hcc]
      ring
    · have hc' : c' = c₀ := by
        rw [← hc₀eq]
        simp [hid]
      have h3 : txSum (createBillApply st req c pls).txs c₀.id = 0 := by
        rw [txSum_of_all _ req.customerId c₀.id hall, if_neg hid]
      rw [hc', h3, h1, add_zero]
  · rw [(createBill_err st req h201).1]
    exact h

theorem txSum_singleton (t : Transaction) (x : Nat) :
    txSum [t] x = if t.customerId == x then t.amount else 0 := by
  rw [txSum_cons]
  simp [txSum]

/-- Standalone payment preserves ledger consistency: the balance delta
`-amount` equals the amount of the single `payment` transaction written. -/
theorem recordPayment_ledgerOk (st : St) (req : PayReq) (h : ledgerOk st) :
    ledgerOk (recordPayment st req).state := by
  rcases recordPayment_cases st req with ⟨_, he⟩ | ⟨_, he⟩ | ⟨c, hc, he⟩
  · rw [he]; exact h
  · rw [he]; exact h
  · rw [he, payWithCustomer_eq]
    intro c' hc'
    simp only at hc' ⊢
    have hcmem : c ∈ st.customers := List.mem_of_find?_eq_some hc
    have hcid : c.id = req.customerId := by
      have := List.find?_some hc
      simpa using this
    rw [txSum_append, txSum_singleton]
    simp only [setBalance] at hc'
    obtain ⟨c₀, hc₀mem, hc₀eq⟩ := List.mem_map.mp hc'
    have h1 : txSum st.transactions c₀.id = c₀.balance := h c₀ hc₀mem
    by_cases hid : c₀.id = req.customerId
    · have hceq : c' = { c₀ with balance := c.balance - req.amount } := by
        rw [← hc₀eq]
        simp [hid]
      have h2 : txSum st.transactions c.id = c.balance := h c hcmem
      have hcc : c₀.balance = c.balance := by
        rw [← h1, ← h2, hid, hcid]
      rw [hceq]
      simp only
      rw [if_pos (by simp [hid]), h1, hcc]
      ring
    · have hceq : c' = c₀ := by
        rw [← hc₀eq]
        simp [hid]
      rw [hceq]
      rw [if_neg (by simp; exact fun hh => hid hh.symm), h1, add_zero]

/-- A refund request preserves ledger consistency: it never reaches the
balance update or the ledger write. -/
theorem processRefund_ledgerOk (st : St) (req : RefundReq) (h : ledgerOk st) :
    ledgerOk (processRefund st req).state := by
  obtain ⟨hcs, hts, _, _, _⟩ := processRefund_immutable st req
  exact ledgerOk_of_eq st _ hcs hts h

/-- Every balance-affecting request preserves ledger consistency. -/
theorem applyOp_ledgerOk (st : St) (op : Op) (h : ledgerOk st) :
    ledgerOk (applyOp st op) := by
  cases op with
  | bill req => exact createBill_ledgerOk st req h
  | pay req => exact recordPayment_ledgerOk st req h
  | refund req => exact processRefund_ledgerOk st req h

/-- Ledger consistency is preserved by any sequence of requests. -/
theorem run_ledgerOk (ops : List Op) : ∀ st : St, ledgerOk st → ledgerOk (run st ops) := by
  induction ops with
  | nil => intro st h; exact h
  | cons op ops ih => intro st h; exact ih (applyOp st op) (applyOp_ledgerOk st op h)

/-! ### Stock-accounting lemmas -/

/-- Client-side view of the recomputed subtotal: `Σ quantity * customPrice`
over the request lines. -/
def reqSubtotal (ls : List BillLineReq) : ℚ :=
  (ls.map (fun l => l.quantity * l.customPrice)).sum

/-- `find?` on an id predicate commutes with any id-preserving map. -/
theorem find?_of_id_preserving (its : List Item) (g : Item → Item)
    (hg : ∀ it, (g it).id = it.id) (iid : Nat) :
    (its.map g).find? (fun it => it.id == iid)
      = (its.find? (fun it => it.id == iid)).map g := by
  rw [List.find?_map]
  have h : ((fun it : Item => it.id == iid) ∘ g) = fun it : Item => it.id == iid := by
    funext it
    simp [Function.comp, hg it]
  rw [h]

/-- With pairwise-distinct ids, `find?` on a member's id returns the member. -/
theorem find?_of_nodup (its : List Item) (hnd : (its.map (fun it => it.id)).Nodup)
    (it : Item) (h : it ∈ its) :
    its.find? (fun x => x.id == it.id) = some it := by
  induction its with
  | nil => cases h
  | cons a its ih =>
    simp only [List.map_cons, List.nodup_cons] at hnd
    rcases List.mem_cons.mp h with rfl | hmem
    · simp
    · have hne : (a.id == it.id) = false := by
        simp only [beq_eq_false_iff_ne, ne_eq]
        intro hh
        exact hnd.1 (hh ▸ List.mem_map_of_mem (fun x => x.id) hmem)
      rw [List.find?_cons_of_neg _ (by simp [hne])]
      exact ih hnd.2 hmem

/-- With pairwise-distinct line item ids, filtering the lines on a member's
id yields exactly that member. -/
theorem filter_itemId_singleton (ls : List BillLineReq)
    (hnd : (ls.map (fun l => l.itemId)).Nodup) (l : BillLineReq) (hl : l ∈ ls) :
    ls.filter (fun x => x.itemId == l.itemId) = [l] := by
  induction ls with
  | nil => cases hl
  | cons a ls ih =>
    simp only [List.map_cons, List.nodup_cons] at hnd
    rcases List.mem_cons.mp hl with rfl | hmem
    · rw [List.filter_cons_of_pos (by simp)]
      have : ls.filter (fun x => x.itemId == l.itemId) = [] := by
        rw [List.filter_eq_nil_iff]
        intro x hx
        simp only [beq_iff_eq]
        intro hh
        exact hnd.1 (hh ▸ List.mem_map_of_mem (fun y => y.itemId) hx)
      rw [this]
    · have hne : (a.itemId == l.itemId) = false := by
        simp only [beq_eq_false_iff_ne, ne_eq]
        intro hh
        exact hnd.1 (hh ▸ List.mem_map_of_mem (fun y => y.itemId) hmem)
      rw [List.filter_cons_of_neg (by simp [hne])]
      exact ih hnd.2 hmem

/-- The per-line id/quantity correspondence of a successful populate. -/
theorem populateItems_idqty (st : St) (ls : List BillLineReq) (pls : List BillLine)
    (hp : populateItems st ls = .ok pls) :
    List.Forall₂ (fun (l : BillLineReq) (pl : BillLine) =>
      pl.itemId = l.itemId ∧ pl.quantity = l.quantity) ls pls :=
  List.Forall₂.imp (fun _ _ h => ⟨h.1, h.2.1⟩) (populateItems_ok_spec st ls pls hp)

/-- Total requested quantity per item, computed over the request lines. -/
theorem stockDelta_eq (ls : List BillLineReq) (pls : List BillLine)
    (hrel : List.Forall₂ (fun (l : BillLineReq) (pl : BillLine) =>
      pl.itemId = l.itemId ∧ pl.quantity = l.quantity) ls pls) (iid : Nat) :
    stockDelta pls iid
      = ((ls.filter (fun l => l.itemId == iid)).map (fun l => l.quantity)).sum := by
  induction hrel with
  | nil => rfl
  | @cons l pl ls pls hh _ ih =>
    rw [stockDelta_cons, ih, hh.1, hh.2]
    by_cases hid : (l.itemId == iid) = true
    · simp [List.filter_cons, hid]
    · simp [List.filter_cons, hid]

/-- The subtotal recomputed from the populated lines equals
`Σ quantity * customPrice` over the request lines. -/
theorem calcSubtotal_eq (st : St) (ls : List BillLineReq) (pls : List BillLine)
    (hp : populateItems st ls = .ok pls) :
    calcSubtotal pls = reqSubtotal ls := by
  have hrel := List.Forall₂.imp
    (fun (l : BillLineReq) (pl : BillLine) h => ⟨h.2.2.1, trivial⟩ :
      ∀ (l : BillLineReq) (pl : BillLine),
        (pl.itemId = l.itemId ∧ pl.quantity = l.quantity ∧
          pl.total = l.quantity * l.customPrice ∧
          ∃ it, findItem st l.itemId = some it ∧ l.quantity ≤ it.stock) →
        pl.total = l.quantity * l.customPrice ∧ True)
    (populateItems_ok_spec st ls pls hp)
  clear hp
  induction hrel with
  | nil => rfl
  | @cons l pl ls pls hh _ ih =>
    simp only [calcSubtotal, reqSubtotal, List.map_cons, List.sum_cons] at ih ⊢
    rw [hh.1, ih]

/-- The per-line stock facts of a successful populate. -/
theorem populateItems_stock (st : St) (ls : List BillLineReq) (pls : List BillLine)
    (hp : populateItems st ls = .ok pls) :
    ∀ l ∈ ls, ∃ it, findItem st l.itemId = some it ∧ l.quantity ≤ it.stock := by
  have hrel := populateItems_ok_spec st ls pls hp
  clear hp
  induction hrel with
  | nil => intro l hl; cases hl
  | @cons l pl ls pls hh _ ih =>
    intro x hx
    rcases List.mem_cons.mp hx with rfl | hmem
    · exact hh.2.2.2
    · exact ih x hmem

/-! ### Concrete fixtures (the scenario of the specification and variants) -/

/-- Item A: costPrice 10, sellingPrice 20, stock 5. -/
def itemA : Item :=
  { id := 1, name := "A", costPrice := 10, sellingPrice := 20, stock := 5 }

/-- A customer with balance 0. -/
def custC : Customer :=
  { id := 2, name := "C", phone := "03001234567", address := "", accountNumber := "acc1",
    balance := 0 }

/-- A second customer, also balance 0. -/
def custD : Customer :=
  { id := 3, name := "D", phone := "03007654321", address := "", accountNumber := "acc2",
    balance := 0 }

/-- Store with item A and customer C only. -/
def baseSt : St :=
  { items := [itemA], customers := [custC], bills := [], payments := [],
    transactions := [], refunds := [], nextId := 10 }

/-- The specification's scenario bill: one line of 2 × item A at customPrice 25,
subtotal 50, markup 10, discount 0, grandTotal 55, cash, partialPayment 55. -/
def scenarioReq : BillReq :=
  { customerId := 2,
    items := [{ itemId := 1, quantity := 2, unitPrice := 20, customPrice := 25, total := 50 }],
    subtotal := 50, markup := 10, discount := 0, grandTotal := 55,
    paymentType := "cash", partialPayment := 55 }

/-! ### Claim theorems -/

/-- Claim C1: for every bill-creation request that succeeds, the customer's
stored balance afterwards equals the balance before plus
`grandTotal - partialPayment`; exactly one transaction of type `bill` with
amount `+grandTotal` is created; and a transaction of type `payment` with
amount `-partialPayment` is created iff `partialPayment > 0`. -/
theorem bill_creation_balance_and_ledger (st : St) (req : BillReq) (c : Customer)
    (hc : findCustomer st req.customerId = some c)
    (h201 : (createBill st req).status = 201) :
    findCustomer (createBill st req).state req.customerId
      = some { c with balance := c.balance + req.grandTotal - req.partialPayment } ∧
    (createBill st req).state.transactions
      = st.transactions ++ (createBill st req).txs ∧
    (((createBill st req).txs.filter (fun t => t.txType == "bill")).map
      (fun t => t.amount)) = [req.grandTotal] ∧
    (((createBill st req).txs.filter (fun t => t.txType == "payment")).map
      (fun t => t.amount))
      = (if 0 < req.partialPayment then [-req.partialPayment] else []) := by
  obtain ⟨c1, pls, hv, hc1, hp, _, _, he⟩ := createBill_succ st req h201
  rw [hc] at hc1
  have hcc := Option.some.inj hc1
  subst hcc
  rw [he]
  refine ⟨?_, createBillApply_transactions st req c pls,
    (createBillApply_txs st req c pls).1, (createBillApply_txs st req c pls).2.1⟩
  unfold findCustomer at hc ⊢
  rw [createBillApply_customers, find?_setBalance, hc]
  have hcid : c.id = req.customerId := by
    simpa using List.find?_some hc
  simp [hcid]

/-- Claim C1 witness: the specification's scenario bill succeeds; the balance
stays 0 (delta 55 - 55), and two ledger entries are created: `+55` of type
`bill` and `-55` of type `payment`. -/
theorem bill_creation_balance_and_ledger_witness :
    findCustomer (createBill baseSt scenarioReq).state scenarioReq.customerId
      = some { custC with balance := custC.balance + scenarioReq.grandTotal
                 - scenarioReq.partialPayment } ∧
    (createBill baseSt scenarioReq).state.transactions
      = baseSt.transactions ++ (createBill baseSt scenarioReq).txs ∧
    (((createBill baseSt scenarioReq).txs.filter (fun t => t.txType == "bill")).map
      (fun t => t.amount)) = [scenarioReq.grandTotal] ∧
    (((createBill baseSt scenarioReq).txs.filter (fun t => t.txType == "payment")).map
      (fun t => t.amount))
      = (if 0 < scenarioReq.partialPayment then [-scenarioReq.partialPayment] else []) :=
  bill_creation_balance_and_ledger baseSt scenarioReq custC
    (by norm_num [findCustomer, baseSt, custC, scenarioReq])
    (by norm_num [createBill, billWithCustomer, billTotalsCheck, createBillApply,
      billReqValid, findCustomer, findItem, populateItems, populateLine,
      calcSubtotal, calcTotalCost, calcGrandTotal, calcMarkedUp, setBalance,
      adjStock, baseSt, scenarioReq, itemA, custC])

/-- Claim C3: the bill validator accepts only if the client subtotal is within
0.01 of `Σ quantity*customPrice` and the client grandTotal is within 0.01 of
`(subtotal*(1+markup/100))*(1-discount/100)`; a larger mismatch is rejected
with a 400 whose message names the provided and the recomputed value. -/
theorem bill_total_validation (st : St) (req : BillReq) :
    ((createBill st req).status = 201 →
      |req.subtotal - reqSubtotal req.items| ≤ 1/100 ∧
      |req.grandTotal - req.subtotal * (1 + req.markup/100) * (1 - req.discount/100)|
        ≤ 1/100) ∧
    (∀ c pls, billReqValid req = true → findCustomer st req.customerId = some c →
      populateItems st req.items = .ok pls →
      1/100 < |calcSubtotal pls - req.subtotal| →
      (createBill st req).status = 400 ∧
      (createBill st req).msg = "Subtotal mismatch: provided " ++
        toString req.subtotal ++ ", calculated " ++ toString (calcSubtotal pls)) ∧
    (∀ c pls, billReqValid req = true → findCustomer st req.customerId = some c →
      populateItems st req.items = .ok pls →
      ¬ 1/100 < |calcSubtotal pls - req.subtotal| →
      1/100 < |calcGrandTotal req - req.grandTotal| →
      (createBill st req).status = 400 ∧
      (createBill st req).msg = "Grand total mismatch: provided " ++
        toString req.grandTotal ++ ", calculated " ++ toString (calcGrandTotal req)) := by
  have hgt : calcGrandTotal req
      = req.subtotal * (1 + req.markup/100) * (1 - req.discount/100) := by
    unfold calcGrandTotal calcMarkedUp
    ring
  refine ⟨?_, ?_, ?_⟩
  · intro h201
    obtain ⟨c, pls, hv, hc, hp, h1, h2, he⟩ := createBill_succ st req h201
    rw [calcSubtotal_eq st req.items pls hp, abs_sub_comm] at h1
    rw [hgt, abs_sub_comm] at h2
    exact ⟨h1, h2⟩
  · intro c pls hv hc hp h1
    rw [createBill_withCustomer st req c hv hc,
      billWithCustomer_ok st req c pls hp,
      billTotalsCheck_subMismatch st req c pls h1]
    exact ⟨rfl, rfl⟩
  · intro c pls hv hc hp h1 h2
    rw [createBill_withCustomer st req c hv hc,
      billWithCustomer_ok st req c pls hp,
      billTotalsCheck_gtMismatch st req c pls h1 h2]
    exact ⟨rfl, rfl⟩

/-- Claim C3 witness: on the scenario request, acceptance implies both
tolerances; instantiated at the accepted scenario bill. -/
theorem bill_total_validation_witness :
    |scenarioReq.subtotal - reqSubtotal scenarioReq.items| ≤ 1/100 ∧
    |scenarioReq.grandTotal - scenarioReq.subtotal * (1 + scenarioReq.markup/100)
      * (1 - scenarioReq.discount/100)| ≤ 1/100 :=
  (bill_total_validation baseSt scenarioReq).1
    (by norm_num [createBill, billWithCustomer, billTotalsCheck, createBillApply,
      billReqValid, findCustomer, findItem, populateItems, populateLine,
      calcSubtotal, calcTotalCost, calcGrandTotal, calcMarkedUp, setBalance,
      adjStock, baseSt, scenarioReq, itemA, custC])

/-- Claim C6: a bill-creation request that is not answered 201 (validation
failure, totals mismatch, missing customer or item, insufficient stock)
leaves every collection untouched and creates no transactions. -/
theorem bill_no_mutation_on_failure (st : St) (req : BillReq) :
    (createBill st req).status = 201 ∨
    ((createBill st req).state = st ∧ (createBill st req).txs = []) := by
  by_cases h : (createBill st req).status = 201
  · exact Or.inl h
  · exact Or.inr (createBill_err st req h)

/-- A bill request whose customer does not exist in `baseSt`. -/
def noCustReq : BillReq := { scenarioReq with customerId := 999 }

/-- A bill request (customer exists) whose single line references the absent
item 99. -/
def missingItemReq : BillReq :=
  { customerId := 2,
    items := [{ itemId := 99, quantity := 1, unitPrice := 20, customPrice := 25, total := 25 }],
    subtotal := 25, markup := 0, discount := 0, grandTotal := 25,
    paymentType := "cash", partialPayment := 0 }

/-- Claim C8 (amended): POST /bills answers 404 for a missing customer and 400
for field-validation failures, but a missing ITEM is thrown inside the line
loop and caught by the generic handler, so it is answered 400, not 404. -/
theorem bill_http_statuses (st : St) (req : BillReq) :
    (billReqValid req = false → (createBill st req).status = 400) ∧
    (billReqValid req = true → findCustomer st req.customerId = none →
      (createBill st req).status = 404) ∧
    (∀ c e, billReqValid req = true → findCustomer st req.customerId = some c →
      populateItems st req.items = .error e → (createBill st req).status = 400) := by
  refine ⟨?_, ?_, ?_⟩
  · intro hv
    rw [createBill_invalid st req hv]
  · intro hv hc
    rw [createBill_noCustomer st req hv hc]
  · intro c e hv hc hp
    rw [createBill_withCustomer st req c hv hc, billWithCustomer_err st req c e hp]

/-- Claim C8 counterexample: the customer of `missingItemReq` exists but its
item 99 does not; the response status is 400, not the claimed 404. -/
theorem bill_missing_item_not_404 :
    findCustomer baseSt missingItemReq.customerId = some custC ∧
    findItem baseSt 99 = none ∧
    (createBill baseSt missingItemReq).status = 400 ∧
    (createBill baseSt missingItemReq).status ≠ 404 := by
  refine ⟨?_, ?_, ?_, ?_⟩ <;>
    norm_num [createBill, billWithCustomer, billTotalsCheck, createBillApply,
      billReqValid, findCustomer, findItem, populateItems, populateLine,
      calcSubtotal, calcTotalCost, calcGrandTotal, calcMarkedUp,
      baseSt, missingItemReq, itemA, custC]

/-- Claim C8 witness: a request naming the absent customer 999 is answered
404. -/
theorem bill_http_statuses_witness :
    (createBill baseSt noCustReq).status = 404 :=
  (bill_http_statuses baseSt noCustReq).2.1
    (by norm_num [billReqValid, noCustReq, scenarioReq])
    (by norm_num [findCustomer, baseSt, custC, noCustReq, scenarioReq])

/-- Store in which item A has stock 3. -/
def dupSt : St := { baseSt with items := [{ itemA with stock := 3 }] }

/-- A bill request with TWO lines for the same item 1, quantity 2 each,
against stock 3: each line passes the per-line stock check (2 ≤ 3) but the
two decrements add up to 4. -/
def dupReq : BillReq :=
  { customerId := 2,
    items := [{ itemId := 1, quantity := 2, unitPrice := 20, customPrice := 10, total := 20 },
              { itemId := 1, quantity := 2, unitPrice := 20, customPrice := 10, total := 20 }],
    subtotal := 40, markup := 0, discount := 0, grandTotal := 40,
    paymentType := "cash", partialPayment := 0 }

/-- Claim C2 counterexample: the duplicate-line request succeeds (status 201)
and leaves item 1 with stock -1: stock CAN become negative. -/
theorem bill_stock_negative_counterexample :
    (createBill dupSt dupReq).status = 201 ∧
    findItem (createBill dupSt dupReq).state 1
      = some { id := 1, name := "A", costPrice := 10, sellingPrice := 20, stock := -1 } := by
  constructor <;>
    norm_num [createBill, billWithCustomer, billTotalsCheck, createBillApply,
      billReqValid, findCustomer, findItem, populateItems, populateLine,
      calcSubtotal, calcTotalCost, calcGrandTotal, calcMarkedUp, setBalance,
      adjStock, dupSt, dupReq, baseSt, itemA, custC]

/-- Claim C2 (amended): on a successful bill creation each line's item stock
decreases by exactly that line's quantity and no stock goes negative,
PROVIDED no itemId appears on more than one line (and item ids are unique and
stocks start non-negative); the counterexample shows the proviso is needed. -/
theorem bill_stock_decrement (st : St) (req : BillReq)
    (hids : (st.items.map (fun it => it.id)).Nodup)
    (hnd : (req.items.map (fun l => l.itemId)).Nodup)
    (hpos : ∀ it ∈ st.items, 0 ≤ it.stock)
    (h201 : (createBill st req).status = 201) :
    (∀ l ∈ req.items, ∃ it, findItem st l.itemId = some it ∧ l.quantity ≤ it.stock ∧
      findItem (createBill st req).state l.itemId
        = some { it with stock := it.stock - l.quantity }) ∧
    (∀ it ∈ (createBill st req).state.items, 0 ≤ it.stock) := by
  obtain ⟨c, pls, hv, hc, hp, _, _, he⟩ := createBill_succ st req h201
  rw [he]
  have hitems := createBillApply_items st req c pls
  have hrel := populateItems_idqty st req.items pls hp
  constructor
  · intro l hl
    obtain ⟨it, hit, hle⟩ := populateItems_stock st req.items pls hp l hl
    refine ⟨it, hit, hle, ?_⟩
    unfold findItem at hit ⊢
    rw [hitems, find?_of_id_preserving st.items
      (fun it => { it with stock := it.stock - stockDelta pls it.id })
      (fun x => rfl) l.itemId, hit]
    have hitid : it.id = l.itemId := by
      simpa using List.find?_some hit
    have hdelta : stockDelta pls l.itemId = l.quantity := by
      rw [stockDelta_eq req.items pls hrel l.itemId,
        filter_itemId_singleton req.items hnd l hl]
      simp
    simp only [Option.map_some']
    rw [hitid, hdelta]
  · intro it' hit'
    rw [hitems] at hit'
    obtain ⟨it, hitmem, rfl⟩ := List.mem_map.mp hit'
    simp only
    by_cases hmem : ∃ l ∈ req.items, l.itemId = it.id
    · obtain ⟨l, hl, hlid⟩ := hmem
      have hdelta : stockDelta pls it.id = l.quantity := by
        rw [stockDelta_eq req.items pls hrel it.id, ← hlid,
          filter_itemId_singleton req.items hnd l hl]
        simp
      rw [hdelta]
      obtain ⟨it₂, hit₂, hle⟩ := populateItems_stock st req.items pls hp l hl
      have hfind : findItem st l.itemId = some it := by
        unfold findItem
        rw [hlid]
        exact find?_of_nodup st.items hids it hitmem
      rw [hfind] at hit₂
      have := Option.some.inj hit₂
      subst this
      linarith
    · push_neg at hmem
      have hdelta : stockDelta pls it.id = 0 := by
        rw [stockDelta_eq req.items pls hrel it.id]
        have hnil : req.items.filter (fun l => l.itemId == it.id) = [] := by
          rw [List.filter_eq_nil_iff]
          intro l hl
          simpa using hmem l hl
        rw [hnil]
        rfl
      rw [hdelta, sub_zero]
      exact hpos it hitmem

/-- Claim C2 witness: for the scenario bill, item A's stock drops 5 → 3 and
stays non-negative. -/
theorem bill_stock_decrement_witness :
    ∃ it, findItem baseSt 1 = some it ∧ (2:ℚ) ≤ it.stock ∧
      findItem (createBill baseSt scenarioReq).state 1
        = some { it with stock := it.stock - 2 } := by
  have h := bill_stock_decrement baseSt scenarioReq
    (by norm_num [baseSt, itemA])
    (by norm_num [scenarioReq])
    (by norm_num [baseSt, itemA])
    (by norm_num [createBill, billWithCustomer, billTotalsCheck, createBillApply,
      billReqValid, findCustomer, findItem, populateItems, populateLine,
      calcSubtotal, calcTotalCost, calcGrandTotal, calcMarkedUp, setBalance,
      adjStock, baseSt, scenarioReq, itemA, custC])
  exact h.1 { itemId := 1, quantity := 2, unitPrice := 20, customPrice := 25, total := 50 }
    (by norm_num [scenarioReq])

/-! ### String-literal disequalities used by the concrete evaluations -/

theorem strNe_damaged : (("damaged" : String) = "") = False := eq_false (by decide)

theorem strNe_bad : (("bad" : String) = "") = False := eq_false (by decide)

theorem strNe_mixup : (("mixup" : String) = "") = False := eq_false (by decide)

theorem strNe_pending_refunded :
    (("pending" : String) = "refunded") = False := eq_false (by decide)

theorem strNe_refunded_completed :
    (("refunded" : String) = "completed") = False := eq_false (by decide)

theorem strNe_refunded_pending :
    (("refunded" : String) = "pending") = False := eq_false (by decide)

theorem strNe_B : (("B" : String) = "") = False := eq_false (by decide)

theorem strNe_one : (("1" : String) = "") = False := eq_false (by decide)

theorem strNe_acc9 : (("acc9" : String) = "") = False := eq_false (by decide)

theorem strNe_acc1_acc9 :
    (("acc1" : String) = "acc9") = False := eq_false (by decide)

/-- With basic validation passed, the bill found and not marked refunded, and
the customer found, the refund handler proceeds to the item loop. -/
theorem processRefund_eq_withBill (st : St) (req : RefundReq) (bill : Bill)
    (c : Customer)
    (hb : ¬(req.amount ≤ 0 ∨ req.items.isEmpty = true ∨ req.reason = ""))
    (hbill : findBill st req.billId = some bill)
    (hs : bill.status ≠ "refunded")
    (hc : findCustomer st req.customerId = some c) :
    processRefund st req = refundWithBill st req bill c := by
  have hstage : processRefund st req = refundBillStage st req bill := by
    unfold processRefund
    rw [if_neg ?_, hbill]
    simpa using hb
  rw [hstage]
  unfold refundBillStage
  rw [if_neg hs]
  unfold refundWithBillStage
  rw [hc]

/-- A bill that was billed and can be refunded, status `pending`. -/
def pendingBill : Bill :=
  { id := 5, customerId := 2,
    items := [{ itemId := 1, quantity := 2, unitPrice := 20, customPrice := 25,
                unitCost := 10, total := 50, totalCost := 20 }],
    subtotal := 50, markup := 10, discount := 0, grandTotal := 55,
    grandTotalCost := 20, paymentType := "cash", partialPayment := 55,
    status := "pending" }

/-- Store after the scenario bill: item A at stock 3, customers C and D,
the pending bill on record. -/
def refundSt : St :=
  { items := [{ itemA with stock := 3 }], customers := [custC, custD],
    bills := [pendingBill], payments := [], transactions := [], refunds := [],
    nextId := 20 }

/-- A refund of one unit of item A against the pending bill, by its owner. -/
def refundReq1 : RefundReq :=
  { billId := 5, customerId := 2, amount := 55,
    items := [{ itemId := 1, quantity := 1 }], reason := "damaged" }

/-- Claim C4 (code bug): `'refunded'` is missing from the `billSchema.status`
enum, so `bill.save()` throws and every refund is answered 400 after the stock
increment and the Refund insert: the bill keeps status `pending`, and an
identical second refund request is NOT rejected — it increments stock again
(3 → 4 → 5) and inserts a second Refund document. -/
theorem refund_status_never_persisted :
    billStatusValid "refunded" = false ∧
    (processRefund refundSt refundReq1).status = 400 ∧
    ((findBill (processRefund refundSt refundReq1).state 5).map (fun b => b.status))
      = some "pending" ∧
    (processRefund (processRefund refundSt refundReq1).state refundReq1).status = 400 ∧
    findItem (processRefund (processRefund refundSt refundReq1).state refundReq1).state 1
      = some { id := 1, name := "A", costPrice := 10, sellingPrice := 20, stock := 5 } ∧
    (processRefund (processRefund refundSt refundReq1).state refundReq1).state.refunds.length
      = 2 := by
  refine ⟨rfl, ?_, ?_, ?_, ?_, ?_⟩ <;>
    norm_num [processRefund, refundBillStage, refundWithBillStage, refundWithBill,
      refundPersist, refundLoop, refundDoc, billStatusValid, findBill, findCustomer,
      findItem, adjStock, refundSt, refundReq1, pendingBill, itemA, custC, custD,
      strNe_damaged, strNe_pending_refunded, strNe_refunded_completed,
      strNe_refunded_pending]

/-- A refund whose first line is valid but whose second line references item
99, absent from the bill. -/
def refundReq2 : RefundReq :=
  { billId := 5, customerId := 2, amount := 10,
    items := [{ itemId := 1, quantity := 1 }, { itemId := 99, quantity := 1 }],
    reason := "bad" }

/-- Claim C7 counterexample: the two-line refund with an invalid second line
is rejected (400) and mutates no balance — but the FIRST line's stock
increment (3 → 4) has already been applied when the rejection happens. -/
theorem refund_partial_stock_leak :
    (processRefund refundSt refundReq2).status = 400 ∧
    findItem (processRefund refundSt refundReq2).state 1
      = some { id := 1, name := "A", costPrice := 10, sellingPrice := 20, stock := 4 } ∧
    (processRefund refundSt refundReq2).state.customers = refundSt.customers := by
  refine ⟨?_, ?_, ?_⟩ <;>
    norm_num [processRefund, refundBillStage, refundWithBillStage, refundWithBill,
      refundPersist, refundLoop, refundDoc, billStatusValid, findBill, findCustomer,
      findItem, adjStock, refundSt, refundReq2, pendingBill, itemA, custC, custD,
      strNe_bad, strNe_pending_refunded, strNe_refunded_completed,
      strNe_refunded_pending]

/-- Claim C7 (amended): a refund with a line absent from the bill or exceeding
the original quantity is rejected with no balance, ledger, bill or refund
mutation — but the item list keeps the stock increments the loop applied to
the valid lines before the offending one. -/
theorem refund_invalid_line_rejected (st : St) (req : RefundReq) (bill : Bill)
    (c : Customer)
    (hb : ¬(req.amount ≤ 0 ∨ req.items.isEmpty = true ∨ req.reason = ""))
    (hbill : findBill st req.billId = some bill)
    (hs : bill.status ≠ "refunded")
    (hc : findCustomer st req.customerId = some c)
    (hl : (refundLoop bill st.items req.items).1 = false) :
    (processRefund st req).status = 400 ∧
    (processRefund st req).state.customers = st.customers ∧
    (processRefund st req).state.transactions = st.transactions ∧
    (processRefund st req).state.bills = st.bills ∧
    (processRefund st req).state.refunds = st.refunds ∧
    (processRefund st req).state.items = (refundLoop bill st.items req.items).2 := by
  rw [processRefund_eq_withBill st req bill c hb hbill hs hc,
    refundWithBill_loopFail st req bill c hl]
  exact ⟨rfl, rfl, rfl, rfl, rfl, rfl⟩

/-- Claim C7 witness: the two-line refund instantiates the amended claim. -/
theorem refund_invalid_line_rejected_witness :
    (processRefund refundSt refundReq2).status = 400 ∧
    (processRefund refundSt refundReq2).state.customers = refundSt.customers ∧
    (processRefund refundSt refundReq2).state.transactions = refundSt.transactions ∧
    (processRefund refundSt refundReq2).state.bills = refundSt.bills ∧
    (processRefund refundSt refundReq2).state.refunds = refundSt.refunds ∧
    (processRefund refundSt refundReq2).state.items
      = (refundLoop pendingBill refundSt.items refundReq2.items).2 :=
  refund_invalid_line_rejected refundSt refundReq2 pendingBill custC
    (by norm_num [refundReq2, strNe_bad])
    (by norm_num [findBill, refundSt, pendingBill, refundReq2])
    (by decide)
    (by norm_num [findCustomer, refundSt, custC, custD, refundReq2])
    (by norm_num [refundLoop, adjStock, refundSt, refundReq2, pendingBill, itemA])

/-- A refund against the pending bill requested in the name of customer D,
who does NOT own the bill (the bill belongs to customer C). -/
def refundReq3 : RefundReq :=
  { billId := 5, customerId := 3, amount := 55,
    items := [{ itemId := 1, quantity := 1 }], reason := "mixup" }

/-- Claim C9 (amended): no check ties the refund's customer to the bill — a
request naming a different existing customer passes the bill, customer and
line validation and persists a Refund document naming THAT customer; but
(contrary to the claim) the operation then dies at the `'refunded'` status
save, so no balance decrement or ledger entry is applied to anyone. -/
theorem refund_customer_not_tied_to_bill (st : St) (req : RefundReq) (bill : Bill)
    (c : Customer)
    (hb : ¬(req.amount ≤ 0 ∨ req.items.isEmpty = true ∨ req.reason = ""))
    (hbill : findBill st req.billId = some bill)
    (hs : bill.status ≠ "refunded")
    (hc : findCustomer st req.customerId = some c)
    (_hdiff : req.customerId ≠ bill.customerId)
    (hl : (refundLoop bill st.items req.items).1 = true) :
    (processRefund st req).status = 400 ∧
    (processRefund st req).state.customers = st.customers ∧
    (processRefund st req).state.transactions = st.transactions ∧
    (processRefund st req).state.refunds
      = st.refunds ++
        [refundDoc { st with items := (refundLoop bill st.items req.items).2 } req] ∧
    (refundDoc { st with items := (refundLoop bill st.items req.items).2 } req).customerId
      = req.customerId := by
  rw [processRefund_eq_withBill st req bill c hb hbill hs hc,
    refundWithBill_loopOk st req bill c hl, refundPersist_eq]
  exact ⟨rfl, rfl, rfl, rfl, rfl⟩

/-- Claim C9 witness: customer D (id 3) refunds customer C's bill; all checks
pass with the mismatched customer. -/
theorem refund_customer_not_tied_to_bill_witness :
    (processRefund refundSt refundReq3).status = 400 ∧
    (processRefund refundSt refundReq3).state.customers = refundSt.customers ∧
    (processRefund refundSt refundReq3).state.transactions = refundSt.transactions ∧
    (processRefund refundSt refundReq3).state.refunds
      = refundSt.refunds ++
        [refundDoc { refundSt with
          items := (refundLoop pendingBill refundSt.items refundReq3.items).2 } refundReq3] ∧
    (refundDoc { refundSt with
      items := (refundLoop pendingBill refundSt.items refundReq3.items).2 }
      refundReq3).customerId = refundReq3.customerId :=
  refund_customer_not_tied_to_bill refundSt refundReq3 pendingBill custD
    (by norm_num [refundReq3, strNe_mixup])
    (by norm_num [findBill, refundSt, pendingBill, refundReq3])
    (by decide)
    (by norm_num [findCustomer, refundSt, custC, custD, refundReq3])
    (by decide)
    (by norm_num [refundLoop, adjStock, refundSt, refundReq3, pendingBill, itemA])

/-- Claim C9 counterexample: the refund naming customer D (who does not own
bill 5) is NOT accepted — it is answered 400, and nobody's balance changes:
the operation dies at the `'refunded'` status save. -/
theorem refund_foreign_customer_not_accepted :
    (processRefund refundSt refundReq3).status = 400 ∧
    (processRefund refundSt refundReq3).status ≠ 201 ∧
    (processRefund refundSt refundReq3).state.customers = refundSt.customers := by
  refine ⟨?_, ?_, ?_⟩ <;>
    norm_num [processRefund, refundBillStage, refundWithBillStage, refundWithBill,
      refundPersist, refundLoop, refundDoc, billStatusValid, findBill, findCustomer,
      findItem, adjStock, refundSt, refundReq3, pendingBill, itemA, custC, custD,
      strNe_mixup, strNe_pending_refunded, strNe_refunded_completed,
      strNe_refunded_pending]

/-- Claim C10 counterexample: a refund of 1000000 against a bill of grandTotal
55 passes validation, but the customer's balance does NOT decrease by that
amount — the state's customers are untouched (the request dies at the status
save with a 400). -/
theorem refund_excess_amount_no_balance_change :
    pendingBill.grandTotal = 55 ∧
    (processRefund refundSt { refundReq1 with amount := 1000000 }).status ≠ 201 ∧
    (processRefund refundSt { refundReq1 with amount := 1000000 }).state.customers
      = refundSt.customers := by
  refine ⟨rfl, ?_, ?_⟩ <;>
    norm_num [processRefund, refundBillStage, refundWithBillStage, refundWithBill,
      refundPersist, refundLoop, refundDoc, billStatusValid, findBill, findCustomer,
      findItem, adjStock, refundSt, refundReq1, pendingBill, itemA, custC, custD,
      strNe_damaged, strNe_pending_refunded, strNe_refunded_completed,
      strNe_refunded_pending]

/-- Claim C10 (amended): the refund amount is never compared to any bill
field — EVERY positive amount passes validation identically (the bill's
grandTotal or partialPayment play no role), and the persisted Refund document
records that amount; but (contrary to the claim) the customer's balance never
decreases, because the request then fails at the `'refunded'` status save. -/
theorem refund_amount_unchecked (st : St) (req : RefundReq) (bill : Bill)
    (c : Customer)
    (hbill : findBill st req.billId = some bill)
    (hs : bill.status ≠ "refunded")
    (hc : findCustomer st req.customerId = some c)
    (hne : req.items.isEmpty = false)
    (hr : req.reason ≠ "")
    (hl : (refundLoop bill st.items req.items).1 = true) :
    ∀ a : ℚ, 0 < a →
      (processRefund st { req with amount := a }).status = 400 ∧
      (processRefund st { req with amount := a }).state.customers = st.customers ∧
      (processRefund st { req with amount := a }).state.transactions
        = st.transactions ∧
      ((processRefund st { req with amount := a }).state.refunds.map
        (fun r => r.amount))
        = (st.refunds.map (fun r => r.amount)) ++ [a] := by
  intro a ha
  have hb : ¬({ req with amount := a }.amount ≤ 0 ∨
      { req with amount := a }.items.isEmpty = true ∨
      { req with amount := a }.reason = "") := by
    push_neg
    exact ⟨by simpa using not_le.mpr ha, by simp [hne], hr⟩
  have hl' : (refundLoop bill st.items ({ req with amount := a } : RefundReq).items).1
      = true := hl
  rw [processRefund_eq_withBill st { req with amount := a } bill c hb hbill hs hc,
    refundWithBill_loopOk st { req with amount := a } bill c hl', refundPersist_eq]
  refine ⟨rfl, rfl, rfl, ?_⟩
  simp [refundDoc]

/-- Claim C10 witness: an amount of 1000000 against a bill whose grandTotal is
55 passes validation and is recorded on the Refund document. -/
theorem refund_amount_unchecked_witness :
    (processRefund refundSt { refundReq1 with amount := 1000000 }).status = 400 ∧
    (processRefund refundSt { refundReq1 with amount := 1000000 }).state.customers
      = refundSt.customers ∧
    (processRefund refundSt { refundReq1 with amount := 1000000 }).state.transactions
      = refundSt.transactions ∧
    ((processRefund refundSt { refundReq1 with amount := 1000000 }).state.refunds.map
      (fun r => r.amount))
      = (refundSt.refunds.map (fun r => r.amount)) ++ [(1000000 : ℚ)] :=
  refund_amount_unchecked refundSt refundReq1 pendingBill custC
    (by norm_num [findBill, refundSt, pendingBill, refundReq1])
    (by decide)
    (by norm_num [findCustomer, refundSt, custC, custD, refundReq1])
    (by decide)
    (by decide)
    (by norm_num [refundLoop, adjStock, refundSt, refundReq1, pendingBill, itemA])
    1000000 (by norm_num)

/-- Claim C5 (amended): starting from any store whose customers' balances
match their ledger sums (as after default account creation with balance 0),
every sequence of bill creations, payments and refunds preserves
`Σ Transaction.amount per customer = Customer.balance`. -/
theorem ledger_replay_consistent (st : St) (ops : List Op) (h : ledgerOk st) :
    ledgerOk (run st ops) :=
  run_ledgerOk ops st h

/-- A customer-creation request that smuggles in a non-zero starting balance
(`POST /api/customers` passes `req.body` to the schema unchecked). -/
def badCustReq : CustReq :=
  { name := "B", phone := "1", address := "", accountNumber := "acc9",
    balance := some 5 }

/-- Claim C5 counterexample: account creation itself can break the invariant —
a client-supplied `balance: 5` is stored while the customer has no
transactions, so the ledger replay (0) differs from the balance (5). -/
theorem ledger_replay_counterexample :
    (createCustomer baseSt badCustReq).status = 201 ∧
    ¬ ledgerOk (createCustomer baseSt badCustReq).state := by
  constructor
  · norm_num [createCustomer, baseSt, badCustReq, custC,
      strNe_B, strNe_one, strNe_acc9, strNe_acc1_acc9]
  · intro hl
    have hmem : ({ id := 10, name := "B", phone := "1", address := "", accountNumber := "acc9", balance := 5 } : Customer)
        ∈ (createCustomer baseSt badCustReq).state.customers := by
      norm_num [createCustomer, baseSt, badCustReq, custC,
        strNe_B, strNe_one, strNe_acc9, strNe_acc1_acc9]
    have hbal := hl _ hmem
    norm_num [txSum, createCustomer, baseSt, badCustReq, custC,
      strNe_B, strNe_one, strNe_acc9, strNe_acc1_acc9] at hbal

/-- Claim C5 witness: one scenario bill on the base store keeps the ledger
consistent. -/
theorem ledger_replay_consistent_witness :
    ledgerOk (run baseSt [Op.bill scenarioReq]) :=
  ledger_replay_consistent baseSt [Op.bill scenarioReq] (by
    intro c hc
    simp only [baseSt, List.mem_singleton] at hc
    subst hc
    norm_num [txSum, baseSt, custC])

end Billing
